import Mathlib

/-!
# Verification of the signet-cli proxy command

A shallow embedding of the `proxy` command of signet-cli: flag validation,
mountebank config generation (`setupMbConfig`), the supervised child process
lifecycle, the interrupt-signal synthesis trigger, and the contract synthesis
pass (`CreatePact`).  Pure functions are translated directly from the Go
source; the effectful `RunE` body is modelled as a function from the session
parameters and an environment (outcomes of the fallible external effects) to
a trace of events plus a final outcome.  Machine integers are modelled as
`Int` with explicit range checks where Go's `strconv` bounds matter.
-/

namespace Signet

/-- Sum a list of decimal digit characters into a `Nat`; `none` when the list
is empty or contains a non-digit.  Mirrors the digit loop of Go
`strconv.Atoi` (base 10, no underscores, no spaces). -/
def digitsVal (cs : List Char) : Option Nat :=
  match cs with
  | [] => none
  | _ => cs.foldlM (fun acc c => if c.isDigit then some (acc * 10 + (c.toNat - 48)) else none) 0

/-- Model of Go `strconv.Atoi`: optional leading `+`/`-` sign, then one or
more decimal digits, with the 64-bit `int` range check
`-2^63 ≤ v ≤ 2^63 - 1`.  `none` models a non-nil error return. -/
def goAtoi (s : String) : Option Int :=
  let cs := s.data
  let signDigits : Int × List Char :=
    match cs with
    | '+' :: rest => (1, rest)
    | '-' :: rest => (-1, rest)
    | _ => (1, cs)
  match digitsVal signDigits.2 with
  | none => none
  | some n =>
    let v : Int := signDigits.1 * n
    if v < -(2 ^ 63 : Int) ∨ (2 ^ 63 - 1 : Int) < v then none else some v

/-- `utils.MbProxy` as used by `setupMbConfig`: the upstream target and the
pass-through mode. -/
structure MbProxy where
  «to» : String
  mode : String
deriving DecidableEq, Repr

/-- `utils.MbResponse` as used by `setupMbConfig`. -/
structure MbResponse where
  proxy : MbProxy
deriving DecidableEq, Repr

/-- `utils.MbStub` as used by `setupMbConfig`. -/
structure MbStub where
  responses : List MbResponse
deriving DecidableEq, Repr

/-- `utils.ProxyConfig` as used by `setupMbConfig`: the engine startup
configuration. -/
structure ProxyConfig where
  port : Int
  name : String
  protocol : String
  stubs : List MbStub
deriving DecidableEq, Repr

/-- The `ProxyConfig` literal built inside `setupMbConfig`. -/
def mkProxyConfig (portInt : Int) (target : String) : ProxyConfig :=
  { port := portInt
    name := "signet-proxy"
    protocol := "http"
    stubs := [{ responses := [{ proxy := { «to» := target, mode := "proxyOnce" } }] }] }

/-- `setupMbConfig(port, target, configPath)` from the proxy command.
`writeErr` supplies the outcome of the `osWriteFile` effect (`none` means the
write succeeds).  The result is the returned error (`none` = nil) together
with the file write that was performed, if any, as (path, config) — JSON
marshalling of these fixed structures cannot fail, so the serialized bytes
are identified with the marshalled `ProxyConfig` value. -/
def setupMbConfig (port target configPath : String) (writeErr : Option String) :
    Option String × Option (String × ProxyConfig) :=
  match goAtoi port with
  | none => (some ("strconv.Atoi: cannot parse " ++ port), none)
  | some portInt =>
    let proxyConfig := mkProxyConfig portInt target
    match writeErr with
    | some e => (some ("failed to write mountebank config file: " ++ e), none)
    | none => (none, some (configPath, proxyConfig))

/-- `validateProxyFlags(path, port, target, name, providerName)`: returns the
first error, checking the five flags in the fixed source order; `none` models
a nil return. -/
def validateProxyFlags (path port target name providerName : String) : Option String :=
  if path.length = 0 then
    some "No --path was provided. This is a required flag."
  else if port.length = 0 then
    some "No --port was provided. This is a required flag."
  else if target.length = 0 then
    some "No --target was provided. This is a required flag."
  else if name.length = 0 then
    some "No --name was provided. This is a required flag."
  else if providerName.length = 0 then
    some "No --provider-name was provided. This is a required flag."
  else
    none

/-- Modelled from the spec: a `RecordedInteraction` as captured on disk by
the external recording engine (spec §3): method, path, query, request
headers, opaque request body, response status, response headers, opaque
response body.  The capture sequence is the position in the list. -/
structure RecordedInteraction where
  method : String
  path : String
  query : String
  requestHeaders : List (String × String)
  requestBody : String
  status : Int
  responseHeaders : List (String × String)
  responseBody : String
deriving DecidableEq, Repr

/-- The components of the structural deduplication key of spec §4.5:
method, path, query, request body, response status, response body, response
headers — request headers are not part of the key. -/
structure StructuralKey where
  method : String
  path : String
  query : String
  requestBody : String
  status : Int
  responseBody : String
  responseHeaders : List (String × String)
deriving DecidableEq, Repr

/-- Modelled from the spec: the structural deduplication key of a captured
record (spec §4.5). -/
def structuralKey (r : RecordedInteraction) : StructuralKey :=
  { method := r.method, path := r.path, query := r.query
    requestBody := r.requestBody, status := r.status
    responseBody := r.responseBody, responseHeaders := r.responseHeaders }

/-- The request object of a contract interaction (spec §6 output shape,
bodies kept opaque). -/
structure InteractionRequest where
  method : String
  path : String
  query : String
  headers : List (String × String)
  body : String
deriving DecidableEq, Repr

/-- The response object of a contract interaction. -/
structure InteractionResponse where
  status : Int
  headers : List (String × String)
  body : String
deriving DecidableEq, Repr

/-- One deduplicated exchange of the contract document. -/
structure Interaction where
  description : String
  request : InteractionRequest
  response : InteractionResponse
deriving DecidableEq, Repr

/-- `internal.Consumer`. -/
structure Consumer where
  name : String
deriving DecidableEq, Repr

/-- The provider object of the contract document (spec §6:
`provider:{name:string}`). -/
structure Provider where
  name : String
deriving DecidableEq, Repr

/-- `internal.Pact`, the contract document:
`{consumer:{name}, provider:{name}, interactions, metadata}` — the
timestamp metadata field is outside the model because the claims compare
documents modulo timestamp metadata. -/
structure Pact where
  consumer : Consumer
  interactions : List Interaction
  provider : Provider
deriving DecidableEq, Repr

/-- Modelled from the spec: mapping one captured record to the contract
interaction it emits; the description is synthesized from method + path
(spec §4.5). -/
def toInteraction (r : RecordedInteraction) : Interaction :=
  { description := r.method ++ " " ++ r.path
    request :=
      { method := r.method, path := r.path, query := r.query
        headers := r.requestHeaders, body := r.requestBody }
    response :=
      { status := r.status, headers := r.responseHeaders, body := r.responseBody } }

/-- Modelled from the spec: the synthesizer loop of spec §4.5 — iterate in
capture order, emit a record whose structural key is unseen and remember the
key, skip a record whose key was already seen. -/
def synthLoop :
    List RecordedInteraction → List StructuralKey → List Interaction
  | [], _ => []
  | r :: rest, seen =>
    if structuralKey r ∈ seen then synthLoop rest seen
    else toInteraction r :: synthLoop rest (structuralKey r :: seen)

/-- Modelled from the spec: first-occurrence filter on the structural key —
the declarative "deduplicate, keep first-seen capture order" reading of
spec §4.5, used to characterize `synthLoop`. -/
def keepFirstByKey :
    List RecordedInteraction → List StructuralKey → List RecordedInteraction
  | [], _ => []
  | r :: rest, seen =>
    if structuralKey r ∈ seen then keepFirstByKey rest seen
    else r :: keepFirstByKey rest (structuralKey r :: seen)

/-- Modelled from the spec: full synthesis of the ordered interaction list
from the captured records, starting from no seen keys. -/
def synthesizeInteractions (records : List RecordedInteraction) : List Interaction :=
  synthLoop records []

/-- Modelled from the spec: `utils.CreatePact(stubsDir, path, name,
providerName)` — the Reader→Synthesizer→Writer pass, whose source is not
under src/.  `store` is the capture directory contents: `none` models a
missing directory, which (spec §4.4) yields the empty record sequence, not
an error.  `writeErr` supplies the outcome of the contract file write.
Result: (returned error, has-interactions indicator, contract write
performed, if any).  An empty synthesis yields `(none, false)` and performs
no write (spec §8, empty-capture law); otherwise the contract document is
built from the consumer and provider names and written to `path`. -/
def CreatePact (store : Option (List RecordedInteraction))
    (path name providerName : String) (writeErr : Option String) :
    Option String × Bool × Option (String × Pact) :=
  let records := store.getD []
  let interactions := synthesizeInteractions records
  if interactions = [] then
    (none, false, none)
  else
    let doc : Pact :=
      { consumer := { name := name }
        interactions := interactions
        provider := { name := providerName } }
    match writeErr with
    | some e => (some ("failed to write contract file: " ++ e), false, none)
    | none => (none, true, some (path, doc))

/-- Observable events of one execution of `proxyCmd.RunE`, in program order.
`childStopped` is the event of this command killing the supervised child; the
source contains no kill call, so the model never emits it, and theorems state
its absence from every trace. -/
inductive RunEvent where
  | configWritten (path : String) (cfg : ProxyConfig)
  | childStarted
  | printedListening
  | signalRegistered
  | synthesisTriggered
  | contractWritten (path : String) (doc : Pact)
  | printedSuccess (path : String)
  | printedNoInteractions
  | fatalError (msg : String)
  | childStopped
  | childWaited
deriving DecidableEq, Repr

/-- How the `RunE` execution ends: a nil return (exit code 0), a returned
error (cobra prints it and exits non-zero), or a `log.Fatal` inside the
signal-handler goroutine (exits non-zero immediately). -/
inductive Outcome where
  | success
  | returnedError (msg : String)
  | fatal (msg : String)
deriving DecidableEq, Repr

/-- Environment of one signal delivery: the capture-store snapshot the
engine has produced by that time, and the outcome of the contract file
write attempted during the pass (`none` = the write succeeds). -/
structure SynthTrial where
  store : Option (List RecordedInteraction)
  writeErr : Option String
deriving DecidableEq, Repr

/-- Environment of one `RunE` execution: outcomes of the fallible external
effects, in the order the code performs them, plus the sequence of interrupt
signals delivered while the child runs (each with its store snapshot). -/
structure ProxyEnv where
  npmRoot : Except String String
  configWriteErr : Option String
  startErr : Option String
  deliveries : List SynthTrial
  waitErr : Option String

/-- The signal-handler goroutine's loop (`for range c`): handle each
delivered signal in order by running a `CreatePact` pass; a pass returning
an error hits `log.Fatal`, ending the command there (remaining deliveries
are never handled).  Returns the events of the loop and the fatal message,
if any. -/
def runDeliveries (path name providerName : String) :
    List SynthTrial → List RunEvent × Option String
  | [] => ([], none)
  | t :: rest =>
    match CreatePact t.store path name providerName t.writeErr with
    | (some e, _, _) =>
      ([RunEvent.synthesisTriggered, RunEvent.fatalError e], some e)
    | (none, ok, w) =>
      let writeEvents :=
        match w with
        | some (p, doc) => [RunEvent.contractWritten p doc]
        | none => []
      let reportEvent :=
        if ok then RunEvent.printedSuccess path else RunEvent.printedNoInteractions
      let res := runDeliveries path name providerName rest
      (RunEvent.synthesisTriggered :: (writeEvents ++ [reportEvent]) ++ res.1, res.2)

/-- The body of `proxyCmd.RunE`, as a trace semantics: validate flags,
resolve the npm package root, write the mountebank config, start the child,
print the listening banner, register the interrupt handler, handle the
delivered signals, and block in `mbCmd.Wait()`.  Signal deliveries are
linearized before the wait returns (they can only be handled while the
child is alive); a fatal synthesis error preempts the wait. -/
def proxyRunE (path port target name providerName : String) (env : ProxyEnv) :
    List RunEvent × Outcome :=
  match validateProxyFlags path port target name providerName with
  | some e => ([], Outcome.returnedError e)
  | none =>
    match env.npmRoot with
    | Except.error e => ([], Outcome.returnedError e)
    | Except.ok signetRoot =>
      let configPath := signetRoot ++ "/config.ejs"
      match setupMbConfig port target configPath env.configWriteErr with
      | (some e, _) => ([], Outcome.returnedError e)
      | (none, write) =>
        let configEvents :=
          match write with
          | some (p, cfg) => [RunEvent.configWritten p cfg]
          | none => []
        match env.startErr with
        | some e =>
          (configEvents, Outcome.returnedError ("failed to start mountebank: " ++ e))
        | none =>
          let startedEvents := configEvents ++
            [RunEvent.childStarted, RunEvent.printedListening, RunEvent.signalRegistered]
          let handled := runDeliveries path name providerName env.deliveries
          match handled.2 with
          | some e => (startedEvents ++ handled.1, Outcome.fatal e)
          | none =>
            match env.waitErr with
            | some e =>
              (startedEvents ++ handled.1 ++ [RunEvent.childWaited],
               Outcome.returnedError ("mountebank exited early: " ++ e))
            | none =>
              (startedEvents ++ handled.1 ++ [RunEvent.childWaited], Outcome.success)

/-- Sample captured records used by concrete witnesses. -/
def recA : RecordedInteraction :=
  { method := "GET", path := "/users", query := "", requestHeaders := []
    requestBody := "", status := 200, responseHeaders := [("content-type", "application/json")]
    responseBody := "[]" }

def recB : RecordedInteraction :=
  { method := "POST", path := "/users", query := "", requestHeaders := []
    requestBody := "name=ada", status := 201, responseHeaders := []
    responseBody := "created" }

def recC : RecordedInteraction :=
  { method := "GET", path := "/health", query := "v=1", requestHeaders := []
    requestBody := "", status := 200, responseHeaders := []
    responseBody := "ok" }

/-- The contract writes of a trace, as (path, document) pairs. -/
def writesOf (tr : List RunEvent) : List (String × Pact) :=
  tr.filterMap fun ev =>
    match ev with
    | RunEvent.contractWritten p doc => some (p, doc)
    | _ => none

theorem string_length_eq_zero (s : String) : s.length = 0 ↔ s = "" := by
  cases s with
  | mk l =>
    constructor
    · intro h
      have hl : l = [] := List.length_eq_zero.mp (by simpa [String.length] using h)
      subst hl; rfl
    · intro h
      rw [h]
      rfl

theorem startup_crash_msg_ne (a b : String) :
    ("failed to start mountebank: " ++ a) ≠ ("mountebank exited early: " ++ b) := by
  intro h
  have h2 : ("failed to start mountebank: " ++ a).data.head? = some 'f' := by
    cases a with
    | mk l => rfl
  have h3 : ("mountebank exited early: " ++ b).data.head? = some 'm' := by
    cases b with
    | mk l => rfl
  rw [h] at h2
  exact absurd (h2.symm.trans h3) (by decide)

theorem runDeliveries_no_stop_no_wait (p n pn : String) (ds : List SynthTrial) :
    RunEvent.childStopped ∉ (runDeliveries p n pn ds).1 ∧
    RunEvent.childWaited ∉ (runDeliveries p n pn ds).1 := by
  induction ds with
  | nil => simp [runDeliveries]
  | cons t rest ih =>
    simp only [runDeliveries]
    rcases hC : CreatePact t.store p n pn t.writeErr with ⟨e, ok, w⟩
    cases e with
    | some e => simp
    | none =>
      cases w with
      | none => cases ok <;> simpa using ih
      | some pw => cases ok <;> simpa using ih


theorem runDeliveries_all_ok (p n pn : String) (ds : List SynthTrial)
    (h : ∀ t ∈ ds, (CreatePact t.store p n pn t.writeErr).1 = none) :
    (runDeliveries p n pn ds).2 = none ∧
    (runDeliveries p n pn ds).1.count RunEvent.synthesisTriggered = ds.length := by
  induction ds with
  | nil => simp [runDeliveries]
  | cons t rest ih =>
    have ht := h t (List.mem_cons_self t rest)
    have hrest := fun u hu => h u (List.mem_cons_of_mem t hu)
    have ihr := ih hrest
    simp only [runDeliveries]
    rcases hC : CreatePact t.store p n pn t.writeErr with ⟨e, ok, w⟩
    cases e with
    | some e => simp [hC] at ht
    | none =>
      cases w with
      | none =>
        cases ok <;>
          simp [List.count_cons, List.count_append, ihr.1, ihr.2, List.length_cons]
      | some pw =>
        cases ok <;>
          simp [List.count_cons, List.count_append, ihr.1, ihr.2, List.length_cons]

theorem runDeliveries_first_error (p n pn : String) (pre : List SynthTrial)
    (t : SynthTrial) (rest : List SynthTrial) (e : String)
    (hpre : ∀ u ∈ pre, (CreatePact u.store p n pn u.writeErr).1 = none)
    (ht : (CreatePact t.store p n pn t.writeErr).1 = some e) :
    (runDeliveries p n pn (pre ++ t :: rest)).2 = some e := by
  induction pre with
  | nil =>
    simp only [List.nil_append, runDeliveries]
    rcases hC : CreatePact t.store p n pn t.writeErr with ⟨e2, ok, w⟩
    cases e2 with
    | some e2 =>
      rw [hC] at ht
      simp at ht
      simp [ht]
    | none => rw [hC] at ht; simp at ht
  | cons u pre' ih =>
    have hu := hpre u (List.mem_cons_self u pre')
    have hpre' := fun v hv => hpre v (List.mem_cons_of_mem u hv)
    simp only [List.cons_append, runDeliveries]
    rcases hC : CreatePact u.store p n pn u.writeErr with ⟨e2, ok, w⟩
    cases e2 with
    | some e2 => simp [hC] at hu
    | none =>
      cases w with
      | none => cases ok <;> simpa using ih hpre'
      | some pw => cases ok <;> simpa using ih hpre'


theorem synthLoop_eq_keepFirst (rs : List RecordedInteraction) :
    ∀ seen, synthLoop rs seen = (keepFirstByKey rs seen).map toInteraction := by
  induction rs with
  | nil => intro seen; rfl
  | cons r rest ih =>
    intro seen
    by_cases h : structuralKey r ∈ seen <;> simp [synthLoop, keepFirstByKey, h, ih]




/-- Claim C10: `validateProxyFlags` succeeds iff all five session parameters are
non-empty; otherwise it returns the error naming the first missing flag in
the order path, port, target, name, provider-name; and a validation failure
makes `RunE` return that error with an empty trace — no file written, no
process started. -/
theorem validateProxyFlags_complete (path port target name providerName : String)
    (env : ProxyEnv) :
    (validateProxyFlags path port target name providerName = none ↔
      path ≠ "" ∧ port ≠ "" ∧ target ≠ "" ∧ name ≠ "" ∧ providerName ≠ "") ∧
    (path = "" →
      validateProxyFlags path port target name providerName =
        some "No --path was provided. This is a required flag.") ∧
    (path ≠ "" → port = "" →
      validateProxyFlags path port target name providerName =
        some "No --port was provided. This is a required flag.") ∧
    (path ≠ "" → port ≠ "" → target = "" →
      validateProxyFlags path port target name providerName =
        some "No --target was provided. This is a required flag.") ∧
    (path ≠ "" → port ≠ "" → target ≠ "" → name = "" →
      validateProxyFlags path port target name providerName =
        some "No --name was provided. This is a required flag.") ∧
    (path ≠ "" → port ≠ "" → target ≠ "" → name ≠ "" → providerName = "" →
      validateProxyFlags path port target name providerName =
        some "No --provider-name was provided. This is a required flag.") ∧
    (∀ e, validateProxyFlags path port target name providerName = some e →
      proxyRunE path port target name providerName env = ([], Outcome.returnedError e)) := by
  by_cases hp : path = "" <;> by_cases ho : port = "" <;> by_cases ht : target = "" <;>
    by_cases hn : name = "" <;> by_cases hm : providerName = "" <;>
    simp [validateProxyFlags, proxyRunE, string_length_eq_zero, hp, ho, ht, hn, hm]

theorem validateProxyFlags_complete_witness :
    validateProxyFlags "" "3000" "http://t" "cons" "prov" =
      some "No --path was provided. This is a required flag." ∧
    proxyRunE "" "3000" "http://t" "cons" "prov"
        ⟨Except.ok "/pkg", none, none, [], none⟩ =
      ([], Outcome.returnedError "No --path was provided. This is a required flag.") := by
  have h := validateProxyFlags_complete "" "3000" "http://t" "cons" "prov"
    ⟨Except.ok "/pkg", none, none, [], none⟩
  exact ⟨h.2.1 rfl, h.2.2.2.2.2.2 _ (h.2.1 rfl)⟩

/-- Claim C2 (amended): for every port string that Go strconv.Atoi rejects,
`setupMbConfig` fails with the parse error and performs no file write; the
write is attempted only after the port has parsed. -/
theorem setupMbConfig_unparsable_port_no_write (port target configPath : String)
    (w : Option String) (h : goAtoi port = none) :
    (setupMbConfig port target configPath w).1.isSome = true ∧
    (setupMbConfig port target configPath w).2 = none := by
  simp [setupMbConfig, h]

theorem setupMbConfig_unparsable_port_no_write_witness :
    goAtoi "abc" = none ∧
    (setupMbConfig "abc" "http://t" "/pkg/config.ejs" none).1.isSome = true ∧
    (setupMbConfig "abc" "http://t" "/pkg/config.ejs" none).2 = none :=
  ⟨by decide, setupMbConfig_unparsable_port_no_write "abc" "http://t" "/pkg/config.ejs" none (by decide)⟩

/-- Claim C2 counterexample: the port string "-1" does not parse as a *positive*
integer, yet `setupMbConfig` returns no error and writes the config file,
with port -1: `strconv.Atoi` accepts any in-range integer, so the
"positive integer" reading of the claim is refuted. -/
theorem setupMbConfig_nonpositive_port_still_writes :
    goAtoi "-1" = some (-1) ∧ ¬(0 < (-1 : Int)) ∧
    setupMbConfig "-1" "http://target" "/pkg/config.ejs" none =
      (none, some ("/pkg/config.ejs", mkProxyConfig (-1) "http://target")) := by
  decide

/-- Claim C3: whenever the port parses, `setupMbConfig` builds exactly one stub
holding exactly one response, with proxy mode "proxyOnce", proxy target
equal to the given target URL, protocol "http" and the parsed port, and the
file write carries exactly that config to the config path. -/
theorem setupMbConfig_config_shape (port target configPath : String) (n : Int)
    (h : goAtoi port = some n) :
    setupMbConfig port target configPath none =
      (none, some (configPath,
        { port := n, name := "signet-proxy", protocol := "http",
          stubs := [{ responses := [{ proxy := { «to» := target, mode := "proxyOnce" } }] }] })) ∧
    (mkProxyConfig n target).stubs.length = 1 ∧
    ((mkProxyConfig n target).stubs.map fun s => s.responses.length) = [1] := by
  simp [setupMbConfig, mkProxyConfig, h]

theorem setupMbConfig_config_shape_witness :
    setupMbConfig "3000" "http://target" "/pkg/config.ejs" none =
      (none, some ("/pkg/config.ejs",
        { port := 3000, name := "signet-proxy", protocol := "http",
          stubs := [{ responses := [{ proxy := { «to» := "http://target", mode := "proxyOnce" } }] }] })) :=
  (setupMbConfig_config_shape "3000" "http://target" "/pkg/config.ejs" 3000 (by decide)).1

/-- Claim C6: synthesis deduplicates by the structural key and emits interactions
in first-seen capture order: in general the output is the first-occurrence
filter of the records mapped to interactions, and in particular records
[A, B, A, C] with the two A entries identical yield exactly [A, B, C]. -/
theorem synthesize_dedup_first_seen (A B C : RecordedInteraction)
    (hAB : structuralKey A ≠ structuralKey B)
    (hAC : structuralKey A ≠ structuralKey C)
    (hBC : structuralKey B ≠ structuralKey C) :
    synthesizeInteractions [A, B, A, C] =
      [toInteraction A, toInteraction B, toInteraction C] ∧
    ∀ records, synthesizeInteractions records =
      (keepFirstByKey records []).map toInteraction := by
  constructor
  · simp [synthesizeInteractions, synthLoop, Ne.symm hAB, Ne.symm hAC, Ne.symm hBC]
  · intro records
    exact synthLoop_eq_keepFirst records []

theorem synthesize_dedup_first_seen_witness :
    synthesizeInteractions [recA, recB, recA, recC] =
      [toInteraction recA, toInteraction recB, toInteraction recC] :=
  (synthesize_dedup_first_seen recA recB recC (by decide) (by decide) (by decide)).1



/-- Claim C7: a missing (`none`) or empty capture store is a valid non-error
outcome of `CreatePact`: no error, has-interactions false, no write; and a
signal delivery over such a store makes the command print the
no-interactions report and carry on to a successful exit. -/
theorem createPact_empty_store_no_write (outPath cn pn : String) (w : Option String) :
    CreatePact none outPath cn pn w = (none, false, none) ∧
    CreatePact (some []) outPath cn pn w = (none, false, none) ∧
    (∀ (path port target name providerName pkgRoot : String) (n : Int)
        (st : Option (List RecordedInteraction)),
      validateProxyFlags path port target name providerName = none →
      goAtoi port = some n →
      (st = none ∨ st = some []) →
      proxyRunE path port target name providerName
          ⟨Except.ok pkgRoot, none, none, [⟨st, w⟩], none⟩ =
        ([RunEvent.configWritten (pkgRoot ++ "/config.ejs") (mkProxyConfig n target),
          RunEvent.childStarted, RunEvent.printedListening, RunEvent.signalRegistered,
          RunEvent.synthesisTriggered, RunEvent.printedNoInteractions,
          RunEvent.childWaited], Outcome.success)) := by
  refine ⟨by simp [CreatePact, synthesizeInteractions, synthLoop], by simp [CreatePact, synthesizeInteractions, synthLoop], ?_⟩
  intro path port target name providerName pkgRoot n st hv hp hst
  rcases hst with h | h <;> subst h <;>
    simp [proxyRunE, setupMbConfig, hv, hp, runDeliveries, CreatePact,
      synthesizeInteractions, synthLoop]

theorem createPact_empty_store_no_write_witness :
    CreatePact none "pact.json" "cons" "prov" none = (none, false, none) ∧
    proxyRunE "pact.json" "3000" "http://target" "cons" "prov"
        ⟨Except.ok "/pkg", none, none, [⟨none, none⟩], none⟩ =
      ([RunEvent.configWritten "/pkg/config.ejs" (mkProxyConfig 3000 "http://target"),
        RunEvent.childStarted, RunEvent.printedListening, RunEvent.signalRegistered,
        RunEvent.synthesisTriggered, RunEvent.printedNoInteractions,
        RunEvent.childWaited], Outcome.success) := by
  have h := createPact_empty_store_no_write "pact.json" "cons" "prov" none
  exact ⟨h.1, h.2.2 "pact.json" "3000" "http://target" "cons" "prov" "/pkg" 3000 none
    (by decide) (by decide) (Or.inl rfl)⟩

/-- Claim C5: if a signal-triggered synthesis pass returns an error, the whole
command ends with the non-zero `log.Fatal` outcome: the supervisor wait is
never reached and the child is never stopped, even though the proxy child
is still healthy. -/
theorem synthesis_failure_fatal_to_command
    (path port target name providerName pkgRoot e : String) (n : Int) (env : ProxyEnv)
    (pre : List SynthTrial) (t : SynthTrial) (rest : List SynthTrial)
    (hv : validateProxyFlags path port target name providerName = none)
    (hr : env.npmRoot = Except.ok pkgRoot)
    (hcw : env.configWriteErr = none)
    (hp : goAtoi port = some n)
    (hs : env.startErr = none)
    (hd : env.deliveries = pre ++ t :: rest)
    (hpre : ∀ u ∈ pre, (CreatePact u.store path name providerName u.writeErr).1 = none)
    (ht : (CreatePact t.store path name providerName t.writeErr).1 = some e) :
    (proxyRunE path port target name providerName env).2 = Outcome.fatal e ∧
    (proxyRunE path port target name providerName env).2 ≠ Outcome.success ∧
    RunEvent.childWaited ∉ (proxyRunE path port target name providerName env).1 ∧
    RunEvent.childStopped ∉ (proxyRunE path port target name providerName env).1 := by
  obtain ⟨nr, cw, se, ds, we⟩ := env
  simp only at hr hcw hs hd
  subst hr hcw hs hd
  have herr := runDeliveries_first_error path name providerName pre t rest e hpre ht
  have hnsw := runDeliveries_no_stop_no_wait path name providerName (pre ++ t :: rest)
  simp [proxyRunE, setupMbConfig, hv, hp, herr, hnsw.1, hnsw.2]

theorem synthesis_failure_fatal_to_command_witness :
    (CreatePact (some [recA]) "pact.json" "cons" "prov" (some "permission denied")).1 =
      some "failed to write contract file: permission denied" ∧
    (proxyRunE "pact.json" "3000" "http://target" "cons" "prov"
        ⟨Except.ok "/pkg", none, none, [⟨some [recA], some "permission denied"⟩], none⟩).2 =
      Outcome.fatal "failed to write contract file: permission denied" ∧
    RunEvent.childWaited ∉ (proxyRunE "pact.json" "3000" "http://target" "cons" "prov"
        ⟨Except.ok "/pkg", none, none, [⟨some [recA], some "permission denied"⟩], none⟩).1 := by
  have h := synthesis_failure_fatal_to_command "pact.json" "3000" "http://target" "cons" "prov"
    "/pkg" "failed to write contract file: permission denied" 3000
    ⟨Except.ok "/pkg", none, none, [⟨some [recA], some "permission denied"⟩], none⟩
    [] ⟨some [recA], some "permission denied"⟩ []
    (by decide) rfl rfl (by decide) rfl rfl (by simp) (by decide)
  exact ⟨by decide, h.1, h.2.2.1⟩


theorem getLast?_cons_append_singleton {α : Type} (x a : α) (l : List α) :
    (x :: (l ++ [a])).getLast? = some a := by
  rw [← List.cons_append, List.getLast?_concat]

theorem proxyRunE_never_stops_child (p o tg n m : String) (env : ProxyEnv) :
    RunEvent.childStopped ∉ (proxyRunE p o tg n m env).1 := by
  obtain ⟨nr, cw, se, ds, we⟩ := env
  have h := (runDeliveries_no_stop_no_wait p n m ds).1
  simp only [proxyRunE]
  cases validateProxyFlags p o tg n m with
  | some e => simp
  | none =>
    cases nr with
    | error e => simp
    | ok root =>
      rcases hset : setupMbConfig o tg (root ++ "/config.ejs") cw with ⟨oe, w⟩
      simp only [hset]
      cases oe with
      | some e => simp
      | none =>
        rcases hD : runDeliveries p n m ds with ⟨evs, fat⟩
        rw [hD] at h
        simp only [hD]
        simp only at h
        cases se with
        | some e => cases w <;> simp_all
        | none =>
          cases fat with
          | some e => cases w <;> simp_all
          | none => cases we <;> cases w <;> simp_all

/-- Claim C4 counterexample: one failing synthesis pass ends the whole command
(fatally) before the supervisor's wait, even though the child would have
exited gracefully — so the wait is not the sole point at which the command
ends. -/
theorem proxy_fatal_synthesis_ends_command_early :
    (proxyRunE "pact.json" "3000" "http://target" "cons" "prov"
        ⟨Except.ok "/pkg", none, none, [⟨some [recA], some "disk full"⟩], none⟩).2 =
      Outcome.fatal "failed to write contract file: disk full" ∧
    (proxyRunE "pact.json" "3000" "http://target" "cons" "prov"
        ⟨Except.ok "/pkg", none, none, [⟨some [recA], some "disk full"⟩], none⟩).2 ≠
      Outcome.success ∧
    RunEvent.childWaited ∉ (proxyRunE "pact.json" "3000" "http://target" "cons" "prov"
        ⟨Except.ok "/pkg", none, none, [⟨some [recA], some "disk full"⟩], none⟩).1 := by
  decide

/-- Claim C4 (amended): a signal delivery triggers a synthesis pass and the
command never stops the child in any execution; provided every triggered
pass succeeds, one pass runs per delivery, the trace ends at the
supervisor's wait, and the outcome is governed solely by the child's own
exit. -/
theorem proxy_survives_signals_until_child_exit
    (path port target name providerName pkgRoot : String) (n : Int) (env : ProxyEnv)
    (hv : validateProxyFlags path port target name providerName = none)
    (hr : env.npmRoot = Except.ok pkgRoot)
    (hcw : env.configWriteErr = none)
    (hp : goAtoi port = some n)
    (hs : env.startErr = none)
    (hok : ∀ t ∈ env.deliveries,
      (CreatePact t.store path name providerName t.writeErr).1 = none) :
    (∀ (p o tg nm pv : String) (env2 : ProxyEnv),
      RunEvent.childStopped ∉ (proxyRunE p o tg nm pv env2).1) ∧
    (proxyRunE path port target name providerName env).1.count RunEvent.synthesisTriggered =
      env.deliveries.length ∧
    (proxyRunE path port target name providerName env).1.getLast? =
      some RunEvent.childWaited ∧
    (env.waitErr = none →
      (proxyRunE path port target name providerName env).2 = Outcome.success) ∧
    (∀ er, env.waitErr = some er →
      (proxyRunE path port target name providerName env).2 =
        Outcome.returnedError ("mountebank exited early: " ++ er)) := by
  obtain ⟨nr, cw, se, ds, we⟩ := env
  simp only at hr hcw hs hok
  subst hr hcw hs
  have hall := runDeliveries_all_ok path name providerName ds hok
  refine ⟨proxyRunE_never_stops_child, ?_, ?_, ?_, ?_⟩ <;>
    cases we <;>
      simp [proxyRunE, setupMbConfig, hv, hp, hall.1, hall.2, List.count_append,
        List.count_cons, getLast?_cons_append_singleton]

theorem proxy_survives_signals_until_child_exit_witness :
    (proxyRunE "pact.json" "3000" "http://target" "cons" "prov"
        ⟨Except.ok "/pkg", none, none, [⟨some [recA], none⟩], none⟩).1.count
      RunEvent.synthesisTriggered = 1 ∧
    (proxyRunE "pact.json" "3000" "http://target" "cons" "prov"
        ⟨Except.ok "/pkg", none, none, [⟨some [recA], none⟩], none⟩).1.getLast? =
      some RunEvent.childWaited ∧
    (proxyRunE "pact.json" "3000" "http://target" "cons" "prov"
        ⟨Except.ok "/pkg", none, none, [⟨some [recA], none⟩], none⟩).2 = Outcome.success := by
  have h := proxy_survives_signals_until_child_exit "pact.json" "3000" "http://target"
    "cons" "prov" "/pkg" 3000
    ⟨Except.ok "/pkg", none, none, [⟨some [recA], none⟩], none⟩
    (by decide) rfl rfl (by decide) rfl (by intro t ht; simp at ht; subst ht; decide)
  exact ⟨h.2.1, h.2.2.1, h.2.2.2.1 rfl⟩

/-- Claim C8: a launch failure yields the startup error (aborting with only the
config write performed, before any child exists), a later unexpected child
exit yields the crash error whose message carries the child's failure
reason, and the two error messages are distinguishable for all reasons. -/
theorem startup_error_distinct_from_child_crash
    (path port target name providerName pkgRoot : String) (n : Int)
    (hv : validateProxyFlags path port target name providerName = none)
    (hp : goAtoi port = some n) :
    (∀ (e : String) (ds : List SynthTrial) (we : Option String),
      proxyRunE path port target name providerName ⟨Except.ok pkgRoot, none, some e, ds, we⟩ =
        ([RunEvent.configWritten (pkgRoot ++ "/config.ejs") (mkProxyConfig n target)],
         Outcome.returnedError ("failed to start mountebank: " ++ e))) ∧
    (∀ reason : String,
      (proxyRunE path port target name providerName
          ⟨Except.ok pkgRoot, none, none, [], some reason⟩).2 =
        Outcome.returnedError ("mountebank exited early: " ++ reason) ∧
      ∃ p, "mountebank exited early: " ++ reason = p ++ reason) ∧
    (∀ a b : String,
      ("failed to start mountebank: " ++ a) ≠ ("mountebank exited early: " ++ b)) := by
  refine ⟨?_, ?_, startup_crash_msg_ne⟩
  · intro e ds we
    simp [proxyRunE, setupMbConfig, hv, hp]
  · intro reason
    exact ⟨by simp [proxyRunE, setupMbConfig, hv, hp, runDeliveries],
      ⟨"mountebank exited early: ", rfl⟩⟩

theorem startup_error_distinct_from_child_crash_witness :
    proxyRunE "pact.json" "3000" "http://target" "cons" "prov"
        ⟨Except.ok "/pkg", none, some "exec failed", [], none⟩ =
      ([RunEvent.configWritten "/pkg/config.ejs" (mkProxyConfig 3000 "http://target")],
       Outcome.returnedError ("failed to start mountebank: " ++ "exec failed")) ∧
    (proxyRunE "pact.json" "3000" "http://target" "cons" "prov"
        ⟨Except.ok "/pkg", none, none, [], some "exit status 1"⟩).2 =
      Outcome.returnedError ("mountebank exited early: " ++ "exit status 1") ∧
    ("failed to start mountebank: " ++ "exec failed") ≠
      ("mountebank exited early: " ++ "exit status 1") := by
  have h := startup_error_distinct_from_child_crash "pact.json" "3000" "http://target"
    "cons" "prov" "/pkg" 3000 (by decide) (by decide)
  exact ⟨h.1 "exec failed" [] none, (h.2.1 "exit status 1").1, h.2.2 _ _⟩

/-- Claim C9: two signal deliveries over the same capture-store snapshot produce
two contract writes whose documents are structurally identical (the model
carries no timestamp metadata): synthesis is a deterministic function of
the snapshot, with no state carried between passes. -/
theorem repeated_synthesis_structurally_identical
    (path port target name providerName pkgRoot : String) (n : Int)
    (st : Option (List RecordedInteraction))
    (hv : validateProxyFlags path port target name providerName = none)
    (hp : goAtoi port = some n)
    (hne : synthesizeInteractions (st.getD []) ≠ []) :
    writesOf (proxyRunE path port target name providerName
        ⟨Except.ok pkgRoot, none, none, [⟨st, none⟩, ⟨st, none⟩], none⟩).1 =
      [(path, { consumer := { name := name },
                interactions := synthesizeInteractions (st.getD []),
                provider := { name := providerName } }),
       (path, { consumer := { name := name },
                interactions := synthesizeInteractions (st.getD []),
                provider := { name := providerName } })] := by
  simp [proxyRunE, setupMbConfig, hv, hp, runDeliveries, CreatePact, hne, writesOf]

theorem repeated_synthesis_structurally_identical_witness :
    writesOf (proxyRunE "pact.json" "3000" "http://target" "cons" "prov"
        ⟨Except.ok "/pkg", none, none, [⟨some [recA], none⟩, ⟨some [recA], none⟩], none⟩).1 =
      [("pact.json", { consumer := { name := "cons" },
                       interactions := synthesizeInteractions [recA],
                       provider := { name := "prov" } }),
       ("pact.json", { consumer := { name := "cons" },
                       interactions := synthesizeInteractions [recA],
                       provider := { name := "prov" } })] :=
  repeated_synthesis_structurally_identical "pact.json" "3000" "http://target" "cons" "prov"
    "/pkg" 3000 (some [recA]) (by decide) (by decide) (by decide)

/-- Claim C1: contrary to the claim, in an execution that starts the child the
interrupt-signal handler is registered *after* the recording-engine child is
started: the child-start event strictly precedes the handler-registration
event in the trace (evaluated at a concrete successful startup). -/
theorem proxy_signal_registered_after_child_start :
    RunEvent.childStarted ∈ (proxyRunE "pact.json" "3000" "http://target" "cons" "prov"
        ⟨Except.ok "/pkg", none, none, [], none⟩).1 ∧
    RunEvent.signalRegistered ∈ (proxyRunE "pact.json" "3000" "http://target" "cons" "prov"
        ⟨Except.ok "/pkg", none, none, [], none⟩).1 ∧
    (proxyRunE "pact.json" "3000" "http://target" "cons" "prov"
        ⟨Except.ok "/pkg", none, none, [], none⟩).1.indexOf RunEvent.childStarted <
      (proxyRunE "pact.json" "3000" "http://target" "cons" "prov"
        ⟨Except.ok "/pkg", none, none, [], none⟩).1.indexOf RunEvent.signalRegistered := by
  decide

end Signet
